import Mathlib

/-!
Verification development for the DominosAlrts coupon scraper
(`dominos.py`).  The single pipeline function `scrape_store_by_address`
is embedded shallowly: every interaction with the external browser
(page navigations, element waits, element lookups, attribute reads) is
an input of the model, supplied through an environment record, and the
Python control flow (the outer `try/except/finally`, the store-matching
loop with its `try/except: continue`, the coupon loop with its
per-entry `try/except` and the inner bare `except` around the price
lookup) is translated into total Lean functions.  Status-bar text
updates (`status_text.text(...)`) and driver lifecycle events are
recorded in an event trace; `progress_bar.progress(...)` calls touch a
separate UI widget and carry no data, so they are not modelled.
-/

deriving instance DecidableEq for Except

/-- Python's `str.lower()` (characterwise lowering; the model lowers
ASCII letters, which covers every string the scraper compares). -/
def pyLower (s : String) : String := ⟨s.data.map Char.toLower⟩

/-- Substring test on character lists: `subList n h` is `true` iff the
list `n` occurs contiguously inside `h`.  `subList [] h` is `true` for
every `h`, matching Python's `"" in s`. -/
def subList (needle : List Char) : List Char → Bool
  | [] => needle.isEmpty
  | c :: rest => needle.isPrefixOf (c :: rest) || subList needle rest

/-- Python's `needle in hay` on strings. -/
def strIn (needle hay : String) : Bool :=
  subList needle.toList hay.toList

/-- One `div.store__list-container` element, as the store-matching loop
observes it.  Each field is the outcome of a DOM access that the loop
performs inside its `try`:
* `street`: text of `div[data-quid$='-street']`; `none` means the
  lookup (or the `.text` read) raised `NoSuchElementException` /
  `StaleElementReferenceException`;
* `button`: the `button[data-type='Carryout']` element; `none` means
  the lookup raised; `some i` carries its `data-id` attribute, which
  `get_attribute` returns as `None` (here `none`) when absent;
* `city`: text of `div[data-quid$='-city'] span`; `none` means the
  lookup raised.
The loop swallows these exceptions (`except ...: continue`), so the
exception message is never observable and `Option` suffices. -/
structure StoreContainer where
  street : Option String
  button : Option (Option String)
  city : Option String
deriving DecidableEq

/-- The data the loop keeps about the matched store: the `data-id`
attribute of its carryout button (possibly absent) and the
`store_full_address` string `f"{street_text}, {city_element.text}"`. -/
structure TargetInfo where
  id : Option String
  address : String
deriving DecidableEq

/-- One iteration of the store-matching loop body (lines 95-120 of
`dominos.py`) on a single container: `none` means the loop falls
through to the next container (street element missing/stale, street
text does not contain the target, or the carryout-button / city lookup
raised after a street match — all of which hit `continue`); `some t`
means the loop sets `target_store` and breaks. -/
def matchStore (target : String) (c : StoreContainer) : Option TargetInfo :=
  match c.street with
  | none => none
  | some streetText =>
    if strIn (pyLower target) (pyLower streetText) then
      match c.button with
      | none => none
      | some storeId =>
        match c.city with
        | none => none
        | some cityText => some ⟨storeId, streetText ++ ", " ++ cityText⟩
    else none

/-- The whole store-matching loop: first container on which the body
produces a match wins; the loop never revisits later containers after
a break. -/
def findStore (target : String) : List StoreContainer → Option TargetInfo
  | [] => none
  | c :: rest =>
    match matchStore target c with
    | some t => some t
    | none => findStore target rest

/-- One `div.local-coupon__container` element as the coupon loop
observes it.  `Except` errors carry `str(e)` of the exception the
corresponding DOM access raised:
* `desc`: text of `.local-coupon__description p`;
* `anchor`: the first `a` element, carrying its `data-couponcode`
  attribute (`none` when the attribute is absent);
* `price`: text of `.local-coupon__price`. -/
structure CouponContainer where
  desc : Except String String
  anchor : Except String (Option String)
  price : Except String String
deriving DecidableEq

/-- A row of the result table: the Python dict literal appended to
`coupons_data`, keys in insertion order; a `none` value is Python
`None` (an absent `data-couponcode` attribute). -/
abbrev Row := List (String × Option String)

/-- The dict literal of lines 175-180 of `dominos.py`. -/
def mkRow (addr desc : String) (code : Option String) (price : String) : Row :=
  [("Store Address", some addr),
   ("Coupon Description", some desc),
   ("Coupon Code", code),
   ("Price", some price)]

/-- Outcome of one iteration of the coupon loop body (lines 160-184):
a record appended together with its `Found coupon:` status message, a
silent fall-through (description present but without `%`), or a caught
per-entry exception with its `Error processing a coupon:` message. -/
inductive EntryResult where
  | record (r : Row) (msg : String)
  | silent
  | failed (msg : String)
deriving DecidableEq

/-- One iteration of the coupon loop body.  The inner bare
`try/except` around the price lookup makes the price total:
`price_element.text` on success, the literal `"N/A"` on any
exception. -/
def processEntry (addr : String) (c : CouponContainer) : EntryResult :=
  match c.desc with
  | Except.error e => EntryResult.failed ("Error processing a coupon: " ++ e)
  | Except.ok descriptionText =>
    if strIn "%" descriptionText then
      match c.anchor with
      | Except.error e => EntryResult.failed ("Error processing a coupon: " ++ e)
      | Except.ok couponCode =>
        let price := match c.price with
          | Except.ok p => p
          | Except.error _ => "N/A"
        EntryResult.record (mkRow addr descriptionText couponCode price)
          ("Found coupon: " ++ descriptionText)
    else EntryResult.silent

/-- The whole coupon loop: the list of appended rows and the list of
status messages it emits, in order. -/
def processCoupons (addr : String) : List CouponContainer → List Row × List String
  | [] => ([], [])
  | c :: rest =>
    let r := processCoupons addr rest
    match processEntry addr c with
    | EntryResult.record row m => (row :: r.1, m :: r.2)
    | EntryResult.silent => r
    | EntryResult.failed m => (r.1, m :: r.2)

/-- Outcomes of the external interactions of one invocation, in
program order.  An `Except.error e` field says that the corresponding
browser step raised an exception whose `str(...)` is `e`; all steps
sit inside the function's outer `try`, so any such error is caught at
line 189.  `get_driver()` itself (line 49, before the `try`) launches
a local headless browser and is modelled as succeeding; its failure
mode is a broken deployment, not an acquisition outcome. -/
structure Env where
  /-- `driver.get(...)` of the search page (line 58). -/
  navigate : Except String Unit
  /-- waiting for and clicking `span.Carryout` (lines 61-64). -/
  carryout : Except String Unit
  /-- locating `#cityFinder`, clearing it, typing the city (lines 69-73). -/
  citySearch : Except String Unit
  /-- waiting for and clicking the search button (lines 77-80). -/
  searchBtn : Except String Unit
  /-- waiting for the `div.store__list-container` elements (lines 85-87). -/
  storeList : Except String (List StoreContainer)
  /-- clicking the matched store's carryout button (line 129). -/
  storeSelect : Except String Unit
  /-- waiting for and clicking the coupons tile (lines 137-140). -/
  couponsNav : Except String Unit
  /-- waiting for and clicking `a.findCouponButton` (lines 143-146). -/
  findCoupon : Except String Unit
  /-- waiting for the `div.local-coupon__container` elements (lines 155-157). -/
  couponList : Except String (List CouponContainer)

/-- Observable events of one invocation: a `status_text.text(...)`
update, the creation of the webdriver, or `driver.quit()`. -/
inductive Event where
  | status (s : String)
  | driverCreate
  | driverQuit
deriving DecidableEq

/-- What one invocation of `scrape_store_by_address` gives back: the
rows of the returned `DataFrame` and the event trace. -/
structure RunResult where
  table : List Row
  events : List Event
deriving DecidableEq

/-- The status message of line 123 (the target address is quoted). -/
def notFoundMsg (target : String) : String :=
  "No store found with address containing \x27" ++ target ++ "\x27"

/-- The body of the outer `try` block (lines 54-187): either the list
of rows appended to `coupons_data` (the early `return pd.DataFrame()`
of the no-match branch yields `[]`), or the first uncaught exception;
paired with the status messages emitted before that point. -/
def runBody (env : Env) (target : String) :
    Except String (List Row) × List String :=
  match env.navigate with
  | Except.error e => (Except.error e, ["Navigating to Dominos website..."])
  | Except.ok _ =>
  match env.carryout with
  | Except.error e => (Except.error e, ["Navigating to Dominos website..."])
  | Except.ok _ =>
  match env.citySearch with
  | Except.error e =>
      (Except.error e,
       ["Navigating to Dominos website...",
        "Searching for Montreal, QC locations..."])
  | Except.ok _ =>
  match env.searchBtn with
  | Except.error e =>
      (Except.error e,
       ["Navigating to Dominos website...",
        "Searching for Montreal, QC locations..."])
  | Except.ok _ =>
  match env.storeList with
  | Except.error e =>
      (Except.error e,
       ["Navigating to Dominos website...",
        "Searching for Montreal, QC locations..."])
  | Except.ok stores =>
  match findStore target stores with
  | none =>
      (Except.ok [],
       ["Navigating to Dominos website...",
        "Searching for Montreal, QC locations...",
        "Looking for store with address containing: " ++ target,
        notFoundMsg target])
  | some ts =>
  match env.storeSelect with
  | Except.error e =>
      (Except.error e,
       ["Navigating to Dominos website...",
        "Searching for Montreal, QC locations...",
        "Looking for store with address containing: " ++ target,
        "Found target store: " ++ ts.address,
        "Selecting store: " ++ ts.address ++ "..."])
  | Except.ok _ =>
  match env.couponsNav with
  | Except.error e =>
      (Except.error e,
       ["Navigating to Dominos website...",
        "Searching for Montreal, QC locations...",
        "Looking for store with address containing: " ++ target,
        "Found target store: " ++ ts.address,
        "Selecting store: " ++ ts.address ++ "...",
        "Navigating to coupons page..."])
  | Except.ok _ =>
  match env.findCoupon with
  | Except.error e =>
      (Except.error e,
       ["Navigating to Dominos website...",
        "Searching for Montreal, QC locations...",
        "Looking for store with address containing: " ++ target,
        "Found target store: " ++ ts.address,
        "Selecting store: " ++ ts.address ++ "...",
        "Navigating to coupons page..."])
  | Except.ok _ =>
  match env.couponList with
  | Except.error e =>
      (Except.error e,
       ["Navigating to Dominos website...",
        "Searching for Montreal, QC locations...",
        "Looking for store with address containing: " ++ target,
        "Found target store: " ++ ts.address,
        "Selecting store: " ++ ts.address ++ "...",
        "Navigating to coupons page...",
        "Waiting for coupons to load...",
        "Finding percentage discount coupons..."])
  | Except.ok coupons =>
  let pr := processCoupons ts.address coupons
  (Except.ok pr.1,
   ["Navigating to Dominos website...",
    "Searching for Montreal, QC locations...",
    "Looking for store with address containing: " ++ target,
    "Found target store: " ++ ts.address,
    "Selecting store: " ++ ts.address ++ "...",
    "Navigating to coupons page...",
    "Waiting for coupons to load...",
    "Finding percentage discount coupons..."]
   ++ pr.2
   ++ ["Found " ++ toString pr.1.length ++ " percentage coupons for "
        ++ ts.address])

/-- The whole of `scrape_store_by_address`: the setup message, then
the driver creation (line 49), then the `try` body; an exception
caught at line 189 appends its message and forces an empty table; the
`finally` quits the driver on every path before control returns. -/
def scrape_store_by_address (env : Env) (target : String) : RunResult :=
  match runBody env target with
  | (Except.ok rows, msgs) =>
      ⟨rows,
       Event.status "Setting up the WebDriver..." :: Event.driverCreate ::
         (msgs.map Event.status ++ [Event.driverQuit])⟩
  | (Except.error e, msgs) =>
      ⟨[],
       Event.status "Setting up the WebDriver..." :: Event.driverCreate ::
         ((msgs ++ ["An error occurred: " ++ e]).map Event.status
           ++ [Event.driverQuit])⟩

/-- The text of a status event. -/
def eventText : Event → Option String
  | Event.status s => some s
  | _ => none

/-- The sequence of status-bar texts of a run. -/
def statusMessages (r : RunResult) : List String :=
  r.events.filterMap eventText

/-- The store the pipeline matches, if the run reaches the
store-matching loop. -/
def matchedStore (env : Env) (target : String) : Option TargetInfo :=
  match env.navigate, env.carryout, env.citySearch, env.searchBtn,
        env.storeList with
  | Except.ok _, Except.ok _, Except.ok _, Except.ok _, Except.ok stores =>
      findStore target stores
  | _, _, _, _, _ => none

/-- The four stages before the store list, all succeeding. -/
def preStagesOk (env : Env) : Prop :=
  env.navigate = Except.ok () ∧ env.carryout = Except.ok () ∧
  env.citySearch = Except.ok () ∧ env.searchBtn = Except.ok ()

/-- Spec-side predicate: the container's street text contains the
target, case-insensitively (reads the street field only). -/
def streetMatches (target : String) (c : StoreContainer) : Bool :=
  match c.street with
  | some s => strIn (pyLower target) (pyLower s)
  | none => false

/-- Modelled from the spec: `find_store` "returns the first store in
S-order whose street field contains A case-insensitively, or NotFound
if none does". -/
def find_store_spec (target : String) (cs : List StoreContainer) :
    Option StoreContainer :=
  cs.find? (streetMatches target)

/-- The target the loop builds from a container (defaults are never
reached on containers whose elements are all present). -/
def targetOfContainer (c : StoreContainer) : TargetInfo :=
  ⟨c.button.getD none, c.street.getD "" ++ ", " ++ c.city.getD ""⟩

/-- A container whose three observed elements are all present. -/
def wellFormedContainer (c : StoreContainer) : Bool :=
  c.street.isSome && c.button.isSome && c.city.isSome

/-- A coupon entry qualifies when its description text was read and
contains a percent sign. -/
def couponQualifies (c : CouponContainer) : Bool :=
  match c.desc with
  | Except.ok d => strIn "%" d
  | Except.error _ => false

/-- Description text of an entry whose description was read. -/
def descTextOf (c : CouponContainer) : String :=
  match c.desc with
  | Except.ok d => d
  | Except.error _ => ""

/-- `data-couponcode` attribute of an entry whose anchor was found. -/
def codeAttrOf (c : CouponContainer) : Option String :=
  match c.anchor with
  | Except.ok a => a
  | Except.error _ => none

/-- Price text with the `"N/A"` default of the inner `try/except`. -/
def priceTextOf (c : CouponContainer) : String :=
  match c.price with
  | Except.ok p => p
  | Except.error _ => "N/A"

/-- Python's `str.strip()` with no argument: surrounding whitespace
removed.  The scraper itself never calls it; it is the spec-side
notion of "trimmed". -/
def pyStrip (s : String) : String :=
  ⟨((s.data.dropWhile Char.isWhitespace).reverse.dropWhile
      Char.isWhitespace).reverse⟩

example : strIn "bish" (pyLower "1215 Rue Bishop") = true := by decide

example : pyStrip " 10% off " = "10% off" := by decide

example :
    (scrape_store_by_address
      ⟨Except.ok (), Except.ok (), Except.ok (), Except.ok (),
       Except.ok [⟨some "Ab", some (some "7"), some "M"⟩],
       Except.ok (), Except.ok (), Except.ok (),
       Except.ok [⟨Except.ok "5% x", Except.ok (some "Q"), Except.error "p"⟩]⟩
      "a").table
      = [mkRow "Ab, M" "5% x" (some "Q") "N/A"] := by decide

lemma subList_nil (l : List Char) : subList [] l = true := by
  induction l with
  | nil => rfl
  | cons c rest ih => simp [subList, List.isPrefixOf]

lemma strIn_nil (s : String) : strIn "" s = true := by
  simp [strIn, subList_nil]

lemma matchStore_none_of_missing (t : String) (x : StoreContainer)
    (hx : x.street = none ∨ x.button = none ∨ x.city = none) :
    matchStore t x = none := by
  obtain ⟨s, b, ci⟩ := x
  rcases hx with h | h | h
  · simp only at h
    subst h
    rfl
  · simp only at h
    subst h
    cases s with
    | none => rfl
    | some s =>
      simp only [matchStore]
      split <;> rfl
  · simp only at h
    subst h
    cases s with
    | none => rfl
    | some s =>
      simp only [matchStore]
      split
      · cases b <;> rfl
      · rfl

lemma matchStore_none_of_no_street_match (t : String) (x : StoreContainer)
    (hx : streetMatches t x = false) :
    matchStore t x = none := by
  obtain ⟨s, b, ci⟩ := x
  cases s with
  | none => simp [matchStore]
  | some s =>
    simp [streetMatches] at hx
    simp [matchStore, hx]

lemma findStore_skip_middle (t : String) (pre post : List StoreContainer)
    (x : StoreContainer) (hx : matchStore t x = none) :
    findStore t (pre ++ x :: post) = findStore t (pre ++ post) := by
  induction pre with
  | nil => simp [findStore, hx]
  | cons c rest ih =>
    simp only [List.cons_append, findStore]
    cases matchStore t c <;> simp [ih]

lemma processCoupons_append (addr : String) (xs ys : List CouponContainer) :
    processCoupons addr (xs ++ ys)
      = ((processCoupons addr xs).1 ++ (processCoupons addr ys).1,
         (processCoupons addr xs).2 ++ (processCoupons addr ys).2) := by
  induction xs with
  | nil => simp [processCoupons]
  | cons c rest ih =>
    cases hpe : processEntry addr c with
    | record row m => simp [processCoupons, hpe, ih]
    | silent => simp [processCoupons, hpe, ih]
    | failed m => simp [processCoupons, hpe, ih]

lemma processEntry_record_shape (addr : String) (c : CouponContainer)
    (row : Row) (m : String)
    (h : processEntry addr c = EntryResult.record row m) :
    ∃ d code p, row = mkRow addr d code p := by
  obtain ⟨d, a, p⟩ := c
  cases d with
  | error e => simp [processEntry] at h
  | ok d =>
    by_cases hd : strIn "%" d = true
    · cases a with
      | error e => simp [processEntry, hd] at h
      | ok code =>
        cases p with
        | ok pr =>
          simp only [processEntry, hd, if_true] at h
          exact ⟨d, code, pr, (EntryResult.record.inj h).1.symm⟩
        | error e =>
          simp only [processEntry, hd, if_true] at h
          exact ⟨d, code, "N/A", (EntryResult.record.inj h).1.symm⟩
    · simp [processEntry, hd] at h

lemma mkRow_keys (a d : String) (c : Option String) (p : String) :
    (mkRow a d c p).map Prod.fst
      = ["Store Address", "Coupon Description", "Coupon Code", "Price"] := rfl

lemma mkRow_lookup_addr (a d : String) (c : Option String) (p : String) :
    (mkRow a d c p).lookup "Store Address" = some (some a) := rfl

lemma processCoupons_rows (addr : String) (cs : List CouponContainer) :
    ∀ r ∈ (processCoupons addr cs).1,
      r.map Prod.fst
          = ["Store Address", "Coupon Description", "Coupon Code", "Price"] ∧
      r.lookup "Store Address" = some (some addr) := by
  induction cs with
  | nil => simp [processCoupons]
  | cons c rest ih =>
    intro r hr
    cases hpe : processEntry addr c with
    | record row m =>
      simp only [processCoupons, hpe, List.mem_cons] at hr
      rcases hr with h | h
      · subst h
        obtain ⟨d, code, p, rfl⟩ := processEntry_record_shape addr c _ _ hpe
        exact ⟨mkRow_keys addr d code p, mkRow_lookup_addr addr d code p⟩
      · exact ih r h
    | silent =>
      simp only [processCoupons, hpe] at hr
      exact ih r hr
    | failed m =>
      simp only [processCoupons, hpe] at hr
      exact ih r hr

lemma filterMap_eventText_status (l : List String) :
    (l.map Event.status).filterMap eventText = l := by
  induction l with
  | nil => rfl
  | cons s rest ih => simp [eventText, ih]

lemma filterMap_eventText_comp_status (l : List String) :
    List.filterMap (eventText ∘ Event.status) l = l := by
  induction l with
  | nil => rfl
  | cons s rest ih => simp [eventText, ih]

example :
    findStore "ab"
      [⟨some "xx", some (some "1"), some "c1"⟩,
       ⟨some "zAbz", some (some "2"), some "c2"⟩]
      = some ⟨some "2", "zAbz, c2"⟩ := by decide

example :
    processCoupons "A"
      [⟨Except.ok "20% off", Except.ok (some "ABC"), Except.ok "$5"⟩,
       ⟨Except.ok "Free delivery", Except.ok (some "XYZ"), Except.ok "$0"⟩]
      = ([mkRow "A" "20% off" (some "ABC") "$5"], ["Found coupon: 20% off"]) := by
  decide

lemma statusMessages_scrape_ok (env : Env) (t : String) (rows : List Row)
    (msgs : List String) (h : runBody env t = (Except.ok rows, msgs)) :
    statusMessages (scrape_store_by_address env t)
      = "Setting up the WebDriver..." :: msgs := by
  simp [scrape_store_by_address, h, statusMessages, eventText,
        List.filterMap_append, filterMap_eventText_comp_status]

lemma statusMessages_scrape_error (env : Env) (t : String) (e : String)
    (msgs : List String) (h : runBody env t = (Except.error e, msgs)) :
    statusMessages (scrape_store_by_address env t)
      = "Setting up the WebDriver..."
          :: (msgs ++ ["An error occurred: " ++ e]) := by
  simp [scrape_store_by_address, h, statusMessages, eventText,
        List.filterMap_append, filterMap_eventText_comp_status]

/-- C1: for every list of store containers and every address substring,
the store-matching step of `scrape_store_by_address` selects the first
store in the provider's returned order whose street text contains the
substring case-insensitively, comparing against the street field only
(under the structural contract that each container exposes its street,
carryout-button and city elements), and never inspects later
candidates once a match is found; if no street text contains the
substring the result is the not-found outcome (this part holds for
arbitrary containers). -/
theorem store_match_first_by_street (t : String) (cs : List StoreContainer) :
    ((∀ c ∈ cs, wellFormedContainer c = true) →
      findStore t cs = (find_store_spec t cs).map targetOfContainer) ∧
    ((∀ c ∈ cs, streetMatches t c = false) → findStore t cs = none) := by
  constructor
  · induction cs with
    | nil => intro _; rfl
    | cons c rest ih =>
      intro h
      have hc := h c (List.mem_cons_self c rest)
      have hrest := ih (fun x hx => h x (List.mem_cons_of_mem c hx))
      obtain ⟨s, b, ci⟩ := c
      cases s with
      | none => simp [wellFormedContainer] at hc
      | some s =>
      cases b with
      | none => simp [wellFormedContainer] at hc
      | some b =>
      cases ci with
      | none => simp [wellFormedContainer] at hc
      | some ci =>
      by_cases hm : strIn (pyLower t) (pyLower s) = true
      · simp [findStore, matchStore, hm, find_store_spec, List.find?,
              streetMatches, targetOfContainer]
      · simp only [findStore, matchStore, hm, if_false,
                   Bool.false_eq_true]
        simp only [find_store_spec, List.find?, streetMatches, hm]
        exact hrest
  · induction cs with
    | nil => intro _; rfl
    | cons c rest ih =>
      intro h
      have hc := matchStore_none_of_no_street_match t c
        (h c (List.mem_cons_self c rest))
      simp only [findStore, hc]
      exact ih (fun x hx => h x (List.mem_cons_of_mem c hx))

/-- Witness for C1 at concrete inputs: a two-container list whose
second street matches, and a list with no matching street. -/
theorem store_match_first_by_street_witness :
    findStore "bi"
        [⟨some "xx", some (some "1"), some "c"⟩,
         ⟨some "aBi", some (some "2"), some "d"⟩]
      = (find_store_spec "bi"
          [⟨some "xx", some (some "1"), some "c"⟩,
           ⟨some "aBi", some (some "2"), some "d"⟩]).map targetOfContainer ∧
    findStore "zz" [⟨some "xx", some (some "1"), some "c"⟩] = none := by
  constructor
  · exact (store_match_first_by_street "bi"
      [⟨some "xx", some (some "1"), some "c"⟩,
       ⟨some "aBi", some (some "2"), some "d"⟩]).1 (by decide)
  · exact (store_match_first_by_street "zz"
      [⟨some "xx", some (some "1"), some "c"⟩]).2 (by decide)

/-- C2: for every coupon listing (each entry holding a description
paragraph and a code-bearing anchor, per the external structural
contract; the price element stays optional), the rows produced by the
coupon-extraction loop are exactly the entries whose description text
contains a percent sign, in source order, and the loop's status
messages are exactly the `Found coupon:` messages of those entries —
entries without a percent sign contribute no row and no message. -/
theorem coupon_filter_exact_subsequence (addr : String)
    (cs : List CouponContainer)
    (h : ∀ c ∈ cs, (∃ d, c.desc = Except.ok d) ∧ ∃ a, c.anchor = Except.ok a) :
    (processCoupons addr cs).1
        = (cs.filter couponQualifies).map
            (fun c => mkRow addr (descTextOf c) (codeAttrOf c) (priceTextOf c)) ∧
    (processCoupons addr cs).2
        = (cs.filter couponQualifies).map
            (fun c => "Found coupon: " ++ descTextOf c) := by
  revert h
  induction cs with
  | nil => intro _; exact ⟨rfl, rfl⟩
  | cons c rest ih =>
    intro h
    obtain ⟨⟨d, hd⟩, ⟨a, ha⟩⟩ := h c (List.mem_cons_self c rest)
    obtain ⟨ihr, ihm⟩ := ih (fun x hx => h x (List.mem_cons_of_mem c hx))
    by_cases hq : strIn "%" d = true
    · have hpe : processEntry addr c
          = EntryResult.record
              (mkRow addr (descTextOf c) (codeAttrOf c) (priceTextOf c))
              ("Found coupon: " ++ descTextOf c) := by
        simp [processEntry, hd, ha, hq, descTextOf, codeAttrOf, priceTextOf]
      have hf : couponQualifies c = true := by
        simp [couponQualifies, hd, hq]
      constructor
      · simp [processCoupons, hpe, List.filter, hf, ihr]
      · simp [processCoupons, hpe, List.filter, hf, ihm]
    · have hpe : processEntry addr c = EntryResult.silent := by
        simp [processEntry, hd, hq]
      have hf : couponQualifies c = false := by
        simp [couponQualifies, hd, hq]
      constructor
      · simp [processCoupons, hpe, List.filter, hf, ihr]
      · simp [processCoupons, hpe, List.filter, hf, ihm]

/-- Witness for C2: a listing with one qualifying and one
non-qualifying entry. -/
theorem coupon_filter_exact_subsequence_witness :
    (processCoupons "A"
        [⟨Except.ok "20% off", Except.ok (some "ABC"), Except.ok "$5"⟩,
         ⟨Except.ok "Free delivery", Except.ok (some "XYZ"), Except.error "p"⟩]).1
      = ([⟨Except.ok "20% off", Except.ok (some "ABC"), Except.ok "$5"⟩,
          ⟨Except.ok "Free delivery", Except.ok (some "XYZ"),
            Except.error "p"⟩].filter couponQualifies).map
          (fun c => mkRow "A" (descTextOf c) (codeAttrOf c) (priceTextOf c)) :=
  (coupon_filter_exact_subsequence "A"
    [⟨Except.ok "20% off", Except.ok (some "ABC"), Except.ok "$5"⟩,
     ⟨Except.ok "Free delivery", Except.ok (some "XYZ"), Except.error "p"⟩]
    (by
      intro c hc
      rcases List.mem_cons.mp hc with rfl | hc
      · exact ⟨⟨"20% off", rfl⟩, ⟨some "ABC", rfl⟩⟩
      · rcases List.mem_cons.mp hc with rfl | hc
        · exact ⟨⟨"Free delivery", rfl⟩, ⟨some "XYZ", rfl⟩⟩
        · cases hc)).1

/-- C4: a failure while extracting a single entry is caught for that
entry alone: the surrounding loop's rows are exactly those of the
other entries, one `Error processing a coupon:` status message is
emitted in place, and processing of the remaining entries continues;
a missing description element produces exactly that outcome. -/
theorem coupon_entry_failure_isolated (addr : String)
    (pre post : List CouponContainer) (c : CouponContainer) (m : String)
    (hc : processEntry addr c = EntryResult.failed m) :
    processCoupons addr (pre ++ c :: post)
      = ((processCoupons addr pre).1 ++ (processCoupons addr post).1,
         (processCoupons addr pre).2 ++ m :: (processCoupons addr post).2) ∧
    (∀ e, c.desc = Except.error e → m = "Error processing a coupon: " ++ e) := by
  constructor
  · have hstep : processCoupons addr (c :: post)
        = ((processCoupons addr post).1,
           m :: (processCoupons addr post).2) := by
      simp [processCoupons, hc]
    rw [processCoupons_append addr pre (c :: post), hstep]
  · intro e he
    have h2 : processEntry addr c
        = EntryResult.failed ("Error processing a coupon: " ++ e) := by
      simp [processEntry, he]
    rw [h2] at hc
    exact (EntryResult.failed.inj hc).symm

/-- Witness for C4: an entry with a missing description element
between two healthy entries. -/
theorem coupon_entry_failure_isolated_witness :
    processCoupons "A"
        ([⟨Except.ok "5% a", Except.ok (some "Q"), Except.ok "$1"⟩]
          ++ (⟨Except.error "boom", Except.ok none, Except.ok "x"⟩ : CouponContainer)
          :: [⟨Except.ok "6% b", Except.ok none, Except.error "p"⟩])
      = ((processCoupons "A"
            [⟨Except.ok "5% a", Except.ok (some "Q"), Except.ok "$1"⟩]).1
          ++ (processCoupons "A"
            [⟨Except.ok "6% b", Except.ok none, Except.error "p"⟩]).1,
         (processCoupons "A"
            [⟨Except.ok "5% a", Except.ok (some "Q"), Except.ok "$1"⟩]).2
          ++ "Error processing a coupon: boom"
            :: (processCoupons "A"
              [⟨Except.ok "6% b", Except.ok none, Except.error "p"⟩]).2) :=
  (coupon_entry_failure_isolated "A"
    [⟨Except.ok "5% a", Except.ok (some "Q"), Except.ok "$1"⟩]
    [⟨Except.ok "6% b", Except.ok none, Except.error "p"⟩]
    ⟨Except.error "boom", Except.ok none, Except.ok "x"⟩
    "Error processing a coupon: boom" (by decide)).1

/-- C5: a qualifying entry whose price element is absent produces a
row whose `Price` field is exactly the literal string `N/A`. -/
theorem missing_price_maps_na (addr d e : String) (a : Option String)
    (c : CouponContainer) (hd : c.desc = Except.ok d)
    (hp : strIn "%" d = true) (ha : c.anchor = Except.ok a)
    (hpr : c.price = Except.error e) :
    processEntry addr c
        = EntryResult.record (mkRow addr d a "N/A") ("Found coupon: " ++ d) ∧
    (mkRow addr d a "N/A").lookup "Price" = some (some "N/A") := by
  constructor
  · simp [processEntry, hd, hp, ha, hpr]
  · rfl

/-- Witness for C5: the spec's Scenario 4 entry. -/
theorem missing_price_maps_na_witness :
    processEntry "S"
        ⟨Except.ok "10% off", Except.ok (some "Q1"), Except.error "absent"⟩
      = EntryResult.record (mkRow "S" "10% off" (some "Q1") "N/A")
          ("Found coupon: 10% off") :=
  (missing_price_maps_na "S" "10% off" "absent" (some "Q1")
    ⟨Except.ok "10% off", Except.ok (some "Q1"), Except.error "absent"⟩
    rfl (by decide) rfl rfl).1

/-- C6 counterexample: the coupon loop stores `description_element.text`
verbatim — no `.strip()` is applied anywhere — so a description with
surrounding whitespace is stored with that whitespace, not in its
trimmed form (`pyStrip` is Python's `str.strip()`). -/
theorem coupon_description_untrimmed_cex :
    processEntry "A"
        ⟨Except.ok " 10% off ", Except.ok (some "Q1"), Except.error "x"⟩
      = EntryResult.record (mkRow "A" " 10% off " (some "Q1") "N/A")
          ("Found coupon:  10% off ") ∧
    (mkRow "A" " 10% off " (some "Q1") "N/A").lookup "Coupon Description"
        = some (some " 10% off ") ∧
    pyStrip " 10% off " ≠ " 10% off " := by decide

/-- C6 as amended: for every qualifying entry, the description stored
in the output record is the entry's description text exactly as read
(no trimming applied), and the coupon code is the anchor's
`data-couponcode` attribute. -/
theorem coupon_description_verbatim (addr d : String) (a : Option String)
    (c : CouponContainer) (hd : c.desc = Except.ok d)
    (hp : strIn "%" d = true) (ha : c.anchor = Except.ok a) :
    processEntry addr c
        = EntryResult.record (mkRow addr d a (priceTextOf c))
            ("Found coupon: " ++ d) ∧
    (mkRow addr d a (priceTextOf c)).lookup "Coupon Description"
        = some (some d) ∧
    (mkRow addr d a (priceTextOf c)).lookup "Coupon Code" = some a := by
  refine ⟨?_, rfl, rfl⟩
  simp [processEntry, hd, hp, ha, priceTextOf]

/-- Witness for the amended C6 at a concrete entry. -/
theorem coupon_description_verbatim_witness :
    processEntry "S"
        ⟨Except.ok "15% деal", Except.ok (some "ZZ"), Except.ok "$9"⟩
      = EntryResult.record
          (mkRow "S" "15% деal" (some "ZZ")
            (priceTextOf ⟨Except.ok "15% деal", Except.ok (some "ZZ"),
              Except.ok "$9"⟩))
          ("Found coupon: 15% деal") :=
  (coupon_description_verbatim "S" "15% деal" (some "ZZ")
    ⟨Except.ok "15% деal", Except.ok (some "ZZ"), Except.ok "$9"⟩
    rfl (by decide) rfl).1

/-- C9 counterexample: with the empty target substring, a container
whose street element is present (so its street text contains the empty
string) but whose carryout button is missing is *not* matched — the
exception from the button lookup sends the loop to `continue` — and a
list made of such containers still yields the not-found outcome. -/
theorem empty_target_malformed_cex :
    streetMatches "" ⟨some "A St", none, some "C"⟩ = true ∧
    findStore "" [⟨some "A St", none, some "C"⟩] = none := by decide

/-- C9 as amended: with the empty target substring the matched store is
the first container whose street, carryout-button and city elements are
all present (the empty string is contained in every street text), and
the search yields not-found only when no such fully well-formed
container is listed. -/
theorem empty_target_first_wellformed (cs : List StoreContainer) :
    findStore "" cs = (cs.find? wellFormedContainer).map targetOfContainer ∧
    ((∃ c ∈ cs, wellFormedContainer c = true) →
      (findStore "" cs).isSome = true) := by
  have h1 : findStore "" cs
      = (cs.find? wellFormedContainer).map targetOfContainer := by
    induction cs with
    | nil => rfl
    | cons c rest ih =>
      obtain ⟨s, b, ci⟩ := c
      cases s with
      | none => simpa [findStore, matchStore, wellFormedContainer, List.find?]
          using ih
      | some s =>
        have hin : strIn (pyLower "") (pyLower s) = true := strIn_nil _
        cases b with
        | none => simpa [findStore, matchStore, hin, wellFormedContainer,
            List.find?] using ih
        | some b =>
          cases ci with
          | none => simpa [findStore, matchStore, hin, wellFormedContainer,
              List.find?] using ih
          | some ci =>
            simp [findStore, matchStore, hin, wellFormedContainer,
              List.find?, targetOfContainer]
  refine ⟨h1, ?_⟩
  rintro ⟨c, hc, hwf⟩
  rw [h1]
  have : (cs.find? wellFormedContainer).isSome = true :=
    List.find?_isSome.mpr ⟨c, hc, hwf⟩
  cases hf : cs.find? wellFormedContainer with
  | none => rw [hf] at this; cases this
  | some x => rfl

/-- Witness for the amended C9: one fully well-formed container. -/
theorem empty_target_first_wellformed_witness :
    (findStore "" [⟨some "B", some (some "9"), some "M"⟩]).isSome = true :=
  (empty_target_first_wellformed [⟨some "B", some (some "9"), some "M"⟩]).2
    ⟨⟨some "B", some (some "9"), some "M"⟩, by decide, by decide⟩

/-- C10: a store container whose street element is missing/stale, or
whose carryout-button or city element is missing, is skipped silently:
the whole invocation — returned table and full event trace, hence also
every status message — is the same as if the container were not listed
at all, so such a container can never be the matched store and
matching continues with the next container. -/
theorem malformed_container_skipped
    (a b c d sel cn fc : Except String Unit)
    (cl : Except String (List CouponContainer))
    (t : String) (pre post : List StoreContainer) (x : StoreContainer)
    (hx : x.street = none ∨ x.button = none ∨ x.city = none) :
    scrape_store_by_address
        ⟨a, b, c, d, Except.ok (pre ++ x :: post), sel, cn, fc, cl⟩ t
      = scrape_store_by_address
        ⟨a, b, c, d, Except.ok (pre ++ post), sel, cn, fc, cl⟩ t := by
  have hm := matchStore_none_of_missing t x hx
  have hfs := findStore_skip_middle t pre post x hm
  simp only [scrape_store_by_address, runBody, hfs]

/-- Witness for C10: a container with a missing street element sitting
in front of a well-formed matching container. -/
theorem malformed_container_skipped_witness :
    scrape_store_by_address
        ⟨Except.ok (), Except.ok (), Except.ok (), Except.ok (),
         Except.ok ([⟨none, some (some "1"), some "c"⟩]
            ++ (⟨none, none, none⟩ : StoreContainer)
            :: [⟨some "Ab", some (some "7"), some "M"⟩]),
         Except.ok (), Except.ok (), Except.ok (), Except.ok []⟩ "a"
      = scrape_store_by_address
        ⟨Except.ok (), Except.ok (), Except.ok (), Except.ok (),
         Except.ok ([⟨none, some (some "1"), some "c"⟩]
            ++ [⟨some "Ab", some (some "7"), some "M"⟩]),
         Except.ok (), Except.ok (), Except.ok (), Except.ok []⟩ "a" :=
  malformed_container_skipped (Except.ok ()) (Except.ok ()) (Except.ok ())
    (Except.ok ()) (Except.ok ()) (Except.ok ()) (Except.ok ())
    (Except.ok []) "a" [⟨none, some (some "1"), some "c"⟩]
    [⟨some "Ab", some (some "7"), some "M"⟩] ⟨none, none, none⟩
    (Or.inl rfl)

lemma scrape_table_eq (env : Env) (t : String) :
    (scrape_store_by_address env t).table
      = match matchedStore env t, env.storeSelect, env.couponsNav,
              env.findCoupon, env.couponList with
        | some ts, Except.ok _, Except.ok _, Except.ok _, Except.ok coupons =>
            (processCoupons ts.address coupons).1
        | _, _, _, _, _ => [] := by
  obtain ⟨nav, car, cty, btn, sl, sel, cn, fc, cl⟩ := env
  cases nav with
  | error e => rfl
  | ok u =>
  cases car with
  | error e => rfl
  | ok u2 =>
  cases cty with
  | error e => rfl
  | ok u3 =>
  cases btn with
  | error e => rfl
  | ok u4 =>
  cases sl with
  | error e => rfl
  | ok stores =>
  cases hfs : findStore t stores with
  | none => simp [scrape_store_by_address, runBody, matchedStore, hfs]
  | some ts =>
  cases sel with
  | error e => simp [scrape_store_by_address, runBody, matchedStore, hfs]
  | ok u5 =>
  cases cn with
  | error e => simp [scrape_store_by_address, runBody, matchedStore, hfs]
  | ok u6 =>
  cases fc with
  | error e => simp [scrape_store_by_address, runBody, matchedStore, hfs]
  | ok u7 =>
  cases cl with
  | error e => simp [scrape_store_by_address, runBody, matchedStore, hfs]
  | ok coupons => simp [scrape_store_by_address, runBody, matchedStore, hfs]

/-- C8: every row the pipeline produces has exactly the keys
`Store Address, Coupon Description, Coupon Code, Price` in that order
(so the displayed table and its CSV export have exactly those columns),
and each row's `Store Address` value is the matched store's
denormalized street-and-city text. -/
theorem table_columns_fixed (env : Env) (t : String) :
    (∀ r ∈ (scrape_store_by_address env t).table,
        r.map Prod.fst
            = ["Store Address", "Coupon Description", "Coupon Code", "Price"] ∧
        ∃ ts, matchedStore env t = some ts ∧
          r.lookup "Store Address" = some (some ts.address)) ∧
    (∀ hd, (scrape_store_by_address env t).table.head? = some hd →
        hd.map Prod.fst
          = ["Store Address", "Coupon Description", "Coupon Code", "Price"]) := by
  have key : ∀ r ∈ (scrape_store_by_address env t).table,
      r.map Prod.fst
          = ["Store Address", "Coupon Description", "Coupon Code", "Price"] ∧
      ∃ ts, matchedStore env t = some ts ∧
        r.lookup "Store Address" = some (some ts.address) := by
    intro r hr
    rw [scrape_table_eq env t] at hr
    cases hms : matchedStore env t with
    | none => simp only [hms] at hr; cases hr
    | some ts =>
    cases hsel : env.storeSelect with
    | error e => simp only [hms, hsel] at hr; cases hr
    | ok u =>
    cases hcn : env.couponsNav with
    | error e => simp only [hms, hsel, hcn] at hr; cases hr
    | ok u2 =>
    cases hfc : env.findCoupon with
    | error e => simp only [hms, hsel, hcn, hfc] at hr; cases hr
    | ok u3 =>
    cases hcl : env.couponList with
    | error e => simp only [hms, hsel, hcn, hfc, hcl] at hr; cases hr
    | ok coupons =>
      simp only [hms, hsel, hcn, hfc, hcl] at hr
      obtain ⟨hk, hl⟩ := processCoupons_rows ts.address coupons r hr
      exact ⟨hk, ts, rfl, hl⟩
  refine ⟨key, ?_⟩
  intro hd hhd
  exact (key hd (List.mem_of_mem_head? hhd)).1

/-- Witness for C8: the happy-path run with one matching store and one
qualifying coupon. -/
theorem table_columns_fixed_witness :
    (mkRow "Ab, M" "5% x" (some "Q") "N/A").map Prod.fst
        = ["Store Address", "Coupon Description", "Coupon Code", "Price"] ∧
    ∃ ts, matchedStore
        ⟨Except.ok (), Except.ok (), Except.ok (), Except.ok (),
         Except.ok [⟨some "Ab", some (some "7"), some "M"⟩],
         Except.ok (), Except.ok (), Except.ok (),
         Except.ok [⟨Except.ok "5% x", Except.ok (some "Q"),
           Except.error "p"⟩]⟩ "a" = some ts ∧
      (mkRow "Ab, M" "5% x" (some "Q") "N/A").lookup "Store Address"
          = some (some ts.address) :=
  (table_columns_fixed
    ⟨Except.ok (), Except.ok (), Except.ok (), Except.ok (),
     Except.ok [⟨some "Ab", some (some "7"), some "M"⟩],
     Except.ok (), Except.ok (), Except.ok (),
     Except.ok [⟨Except.ok "5% x", Except.ok (some "Q"),
       Except.error "p"⟩]⟩ "a").1
    (mkRow "Ab, M" "5% x" (some "Q") "N/A") (by decide)

/-- C7: in every invocation the driver is created once, right at
pipeline start (after only the setup status message), and quit exactly
once, as the very last event — on every exit path, error exits
included; everything in between is status text.  Each invocation's
trace carries its own create/quit pair, so a session is never reused
across invocations. -/
theorem driver_scoped_lifecycle (env : Env) (t : String) :
    ∃ mid, (scrape_store_by_address env t).events
        = Event.status "Setting up the WebDriver..." :: Event.driverCreate ::
            (mid ++ [Event.driverQuit]) ∧
      ∀ ev ∈ mid, ∃ s, ev = Event.status s := by
  cases h : runBody env t with
  | mk res msgs =>
    cases res with
    | ok rows =>
      refine ⟨msgs.map Event.status, ?_, ?_⟩
      · simp [scrape_store_by_address, h]
      · intro ev hev
        obtain ⟨s, _, hev2⟩ := List.mem_map.mp hev
        exact ⟨s, hev2.symm⟩
    | error e =>
      refine ⟨(msgs ++ ["An error occurred: " ++ e]).map Event.status, ?_, ?_⟩
      · simp [scrape_store_by_address, h]
      · intro ev hev
        obtain ⟨s, _, hev2⟩ := List.mem_map.mp hev
        exact ⟨s, hev2.symm⟩

/-- Witness for C7: a run whose very first acquisition step fails. -/
theorem driver_scoped_lifecycle_witness :
    ∃ mid, (scrape_store_by_address
        ⟨Except.error "boom", Except.ok (), Except.ok (), Except.ok (),
         Except.ok [], Except.ok (), Except.ok (), Except.ok (),
         Except.ok []⟩ "q").events
        = Event.status "Setting up the WebDriver..." :: Event.driverCreate ::
            (mid ++ [Event.driverQuit]) ∧
      ∀ ev ∈ mid, ∃ s, ev = Event.status s :=
  driver_scoped_lifecycle
    ⟨Except.error "boom", Except.ok (), Except.ok (), Except.ok (),
     Except.ok [], Except.ok (), Except.ok (), Except.ok (),
     Except.ok []⟩ "q"

/-- C3: the pipeline is a total function of its environment — no
exception escapes to the caller — and both the no-matching-store case
and an acquisition failure at any stage of the `try` body yield an
empty result table together with a status message (`An error
occurred: ...` respectively the quoted no-store message) as the last
status update; on every path the final event is the `finally`-driven
driver quit, i.e. control returns. -/
theorem pipeline_failure_empty_table (env : Env) (t : String) :
    (∀ e, (runBody env t).1 = Except.error e →
        (scrape_store_by_address env t).table = [] ∧
        (statusMessages (scrape_store_by_address env t)).getLast?
            = some ("An error occurred: " ++ e)) ∧
    (∀ stores, preStagesOk env → env.storeList = Except.ok stores →
        findStore t stores = none →
        (scrape_store_by_address env t).table = [] ∧
        (statusMessages (scrape_store_by_address env t)).getLast?
            = some (notFoundMsg t)) ∧
    (scrape_store_by_address env t).events.getLast? = some Event.driverQuit := by
  refine ⟨?_, ?_, ?_⟩
  · intro e he
    cases h : runBody env t with
    | mk res msgs =>
      rw [h] at he
      simp only at he
      subst he
      constructor
      · simp [scrape_store_by_address, h]
      · rw [statusMessages_scrape_error env t e msgs h]
        rw [show ("Setting up the WebDriver..."
              :: (msgs ++ ["An error occurred: " ++ e]))
            = ("Setting up the WebDriver..." :: msgs)
              ++ ["An error occurred: " ++ e] from rfl]
        exact List.getLast?_concat _
  · intro stores hpre hsl hfs
    obtain ⟨hn, hc2, hy, hb⟩ := hpre
    have h : runBody env t = (Except.ok [],
        ["Navigating to Dominos website...",
         "Searching for Montreal, QC locations...",
         "Looking for store with address containing: " ++ t,
         notFoundMsg t]) := by
      simp [runBody, hn, hc2, hy, hb, hsl, hfs]
    constructor
    · simp [scrape_store_by_address, h]
    · rw [statusMessages_scrape_ok env t [] _ h]
      rfl
  · cases h : runBody env t with
    | mk res msgs =>
      cases res with
      | ok rows =>
        have hev : (scrape_store_by_address env t).events
            = (Event.status "Setting up the WebDriver..."
                :: Event.driverCreate :: msgs.map Event.status)
              ++ [Event.driverQuit] := by
          simp [scrape_store_by_address, h]
        rw [hev]
        exact List.getLast?_concat _
      | error e =>
        have hev : (scrape_store_by_address env t).events
            = (Event.status "Setting up the WebDriver..."
                :: Event.driverCreate
                :: (msgs ++ ["An error occurred: " ++ e]).map Event.status)
              ++ [Event.driverQuit] := by
          simp [scrape_store_by_address, h]
        rw [hev]
        exact List.getLast?_concat _

/-- Witness for C3: a navigation timeout on the first step, and a
well-formed run in which no street matches. -/
theorem pipeline_failure_empty_table_witness :
    ((scrape_store_by_address
        ⟨Except.error "timeout", Except.ok (), Except.ok (), Except.ok (),
         Except.ok [], Except.ok (), Except.ok (), Except.ok (),
         Except.ok []⟩ "x").table = [] ∧
      (statusMessages (scrape_store_by_address
        ⟨Except.error "timeout", Except.ok (), Except.ok (), Except.ok (),
         Except.ok [], Except.ok (), Except.ok (), Except.ok (),
         Except.ok []⟩ "x")).getLast?
          = some ("An error occurred: " ++ "timeout")) ∧
    ((scrape_store_by_address
        ⟨Except.ok (), Except.ok (), Except.ok (), Except.ok (),
         Except.ok [⟨some "xx", some (some "1"), some "c"⟩],
         Except.ok (), Except.ok (), Except.ok (), Except.ok []⟩ "zz").table
        = [] ∧
      (statusMessages (scrape_store_by_address
        ⟨Except.ok (), Except.ok (), Except.ok (), Except.ok (),
         Except.ok [⟨some "xx", some (some "1"), some "c"⟩],
         Except.ok (), Except.ok (), Except.ok (), Except.ok []⟩
        "zz")).getLast? = some (notFoundMsg "zz")) :=
  ⟨(pipeline_failure_empty_table
      ⟨Except.error "timeout", Except.ok (), Except.ok (), Except.ok (),
       Except.ok [], Except.ok (), Except.ok (), Except.ok (),
       Except.ok []⟩ "x").1 "timeout" rfl,
   (pipeline_failure_empty_table
      ⟨Except.ok (), Except.ok (), Except.ok (), Except.ok (),
       Except.ok [⟨some "xx", some (some "1"), some "c"⟩],
       Except.ok (), Except.ok (), Except.ok (), Except.ok []⟩ "zz").2.1
      [⟨some "xx", some (some "1"), some "c"⟩]
      ⟨rfl, rfl, rfl, rfl⟩ rfl (by decide)⟩
